import Mathlib

/-!
Shallow embedding of the playback-session controller in
`src/ui/pages/player.rs` (PlayerPage / PlayerControls), together with
theorems checking the specification's claims about it.

Durations are modelled as natural numbers of nanoseconds (Rust's
`std::time::Duration` is an unsigned nanosecond quantity; `saturating_sub`
is Nat subtraction). `as_secs()` is division by `NANOS_PER_SEC`;
fractional-second arithmetic done in `f64` by the source is modelled
exactly over `Rat`.
-/

namespace GnomeReel

/-- Nanoseconds per second, the granularity of `std::time::Duration`. -/
def NANOS_PER_SEC : Nat := 1000000000

/-- Player states observed by the controller (`crate::player::PlayerState`). -/
inductive PlayerState where
  | idle
  | loading
  | playing
  | paused
  | stopped
  | error (msg : String)
deriving DecidableEq, Repr

/-- A media item: identifier and display title (`crate::models::MediaItem`
as used by the controller through `id()` and `title()`). -/
structure MediaItem where
  id : String
  title : String
deriving DecidableEq, Repr

/-- A quality option inside `StreamInfo`. -/
structure QualityOption where
  name : String
  url : String
  requires_transcode : Bool
deriving DecidableEq, Repr

/-- Video resolution carried by `StreamInfo`. -/
structure Resolution where
  width : Int
  height : Int
deriving DecidableEq, Repr

/-- Stream information returned by `Backend::get_stream_url`
(`crate::models::StreamInfo`, the fields the controller reads). -/
structure StreamInfo where
  url : String
  resolution : Resolution
  bitrate : Nat
  video_codec : String
  quality_options : List QualityOption
deriving DecidableEq, Repr

/-- Commands the controller issues to the external Player. -/
inductive PlayerCmd where
  | load (url : String)
  | seek (target_nanos : Nat)
  | play
  | pause
  | stop
deriving DecidableEq, Repr

/-- The observable model of the external Player held by the session. -/
structure PlayerModel where
  loaded_url : Option String
  state : PlayerState
deriving DecidableEq, Repr

/-- The active backend, as the controller consumes it:
`get_stream_url(media_id)` returning either a `StreamInfo` or an error. -/
structure Backend where
  get_stream_url : String → Except String StreamInfo

/-- Errors surfaced by `PlayerPage::load_media` (the `anyhow` error cases:
no active backend, a failing backend stream resolution, or a failing
player command propagated by `?`). -/
inductive LoadError where
  | backendUnavailable
  | streamResolutionFailed (msg : String)
  | playerCommandFailed (which : String)
deriving DecidableEq, Repr

/-- State of the suspend-inhibition resource: the cookie stored in
`inhibit_cookie : Arc<RwLock<Option<u32>>>`, the set of OS-level
inhibitions currently outstanding (modelled as a list of cookies), and a
fresh-cookie counter standing for `gtk::Application::inhibit`. -/
structure InhibitState where
  stored : Option Nat
  live : List Nat
  next : Nat
deriving DecidableEq, Repr

/-- `PlayerPage::uninhibit_suspend` / `PlayerControls::uninhibit_suspend_static`:
takes the stored cookie if present and releases it with `app.uninhibit`;
a no-op when no cookie is stored. (Modelled with the window/application
available, the normal operating condition.) -/
def uninhibit_suspend (s : InhibitState) : InhibitState :=
  match s.stored with
  | none => s
  | some c => { stored := none, live := s.live.erase c, next := s.next }

/-- `PlayerPage::inhibit_suspend` / `PlayerControls::inhibit_suspend_static`:
first uninhibits any existing inhibition, then requests a new
suspend+idle inhibition and stores the returned cookie. -/
def inhibit_suspend (s : InhibitState) : InhibitState :=
  let s1 := uninhibit_suspend s
  { stored := some s1.next, live := s1.live ++ [s1.next], next := s1.next + 1 }

/-- An acquire/release operation on the suspend inhibitor. -/
inductive InhibitOp where
  | acquire
  | release
deriving DecidableEq, Repr

/-- Apply one acquire/release operation. -/
def apply_inhibit_op (s : InhibitState) : InhibitOp → InhibitState
  | InhibitOp.acquire => inhibit_suspend s
  | InhibitOp.release => uninhibit_suspend s

/-- Run a sequence of acquire/release operations. -/
def run_inhibit_ops (ops : List InhibitOp) (s : InhibitState) : InhibitState :=
  match ops with
  | [] => s
  | op :: rest => run_inhibit_ops rest (apply_inhibit_op s op)

/-- The initial inhibition state: no cookie stored, no outstanding
OS inhibition (`inhibit_cookie` starts as `None` in `PlayerPage::new`). -/
def init_inhibit : InhibitState := { stored := none, live := [], next := 0 }

/-- The session state owned by `PlayerPage`: current media item, current
stream info, the player model, and the inhibition state. -/
structure SessionState where
  current_media_item : Option MediaItem
  current_stream_info : Option StreamInfo
  player : PlayerModel
  inhibit : InhibitState
deriving DecidableEq, Repr

/-- `PlayerPage::load_media`, with the outcomes of the two fallible
player calls (`Player::load_media`, `Player::play`) supplied as booleans.
The source stores the requested media item into `current_media_item`
before checking for an active backend; the stream info is stored only
after `get_stream_url` succeeds; errors propagate via `?` and the
mutations made so far persist (the state lives behind `Arc<RwLock>`). -/
def load_media (backend : Option Backend) (item : MediaItem)
    (load_ok play_ok : Bool) (st : SessionState) :
    SessionState × Except LoadError Unit :=
  let st1 := { st with current_media_item := some item }
  match backend with
  | none => (st1, Except.error LoadError.backendUnavailable)
  | some b =>
    match b.get_stream_url item.id with
    | Except.error e => (st1, Except.error (LoadError.streamResolutionFailed e))
    | Except.ok info =>
      let st2 := { st1 with current_stream_info := some info }
      if load_ok then
        let st3 := { st2 with player := { st2.player with loaded_url := some info.url } }
        if play_ok then
          let st4 := { st3 with
                        player := { st3.player with state := PlayerState.playing },
                        inhibit := inhibit_suspend st3.inhibit }
          (st4, Except.ok ())
        else (st3, Except.error (LoadError.playerCommandFailed "play"))
      else (st2, Except.error (LoadError.playerCommandFailed "load"))

/-- `PlayerPage::stop`: instructs the Player to stop (failure only
logged) and releases the suspend inhibition; `current_media_item` and
`current_stream_info` are not touched. -/
def stop_session (s : SessionState) : SessionState × List PlayerCmd :=
  ({ s with inhibit := uninhibit_suspend s.inhibit }, [PlayerCmd.stop])

/-- The `{:02}` field of Rust's `format!`: decimal, zero-padded to width 2. -/
def pad2 (n : Nat) : String :=
  if n < 10 then "0" ++ toString n else toString n

/-- `format_duration` at the bottom of `player.rs`, over whole seconds
(the source calls `duration.as_secs()` first). -/
def format_duration (total_seconds : Nat) : String :=
  let hours := total_seconds / 3600
  let minutes := (total_seconds % 3600) / 60
  let seconds := total_seconds % 60
  if hours > 0 then
    toString hours ++ ":" ++ pad2 minutes ++ ":" ++ pad2 seconds
  else
    toString minutes ++ ":" ++ pad2 seconds

/-- Seek target of the rewind button and of the Left-arrow key handler:
`position.saturating_sub(Duration::from_secs(10))`, in nanoseconds
(Nat subtraction is saturating subtraction). -/
def rewind_target (position : Nat) : Nat :=
  position - 10 * NANOS_PER_SEC

/-- The watched test of `monitor_playback_completion`:
`pos.as_secs_f64() / dur.as_secs_f64() > 0.9`, applied only when both
position and duration are available. Over naturals of nanoseconds the
comparison is `10 * pos > 9 * dur`; this agrees with the `f64`
computation at every input, including `dur = 0` (where `f64` yields
`inf > 0.9` for `pos > 0` and `NaN > 0.9`, i.e. false, for `pos = 0`). -/
def watched_threshold_met (pos dur : Option Nat) : Bool :=
  match pos, dur with
  | some p, some d => decide (10 * p > 9 * d)
  | _, _ => false

/-- Whether a player state makes the completion monitor exit its loop. -/
def is_terminal (s : PlayerState) : Bool :=
  match s with
  | PlayerState.stopped => true
  | PlayerState.error _ => true
  | _ => false

/-- One observation made by the completion monitor on a polling tick:
the player state and, read afterwards in the Stopped branch, the
position and duration. -/
structure Observation where
  state : PlayerState
  pos : Option Nat
  dur : Option Nat
deriving DecidableEq, Repr

/-- Outcome of running the completion monitor over a finite trace of
observations: whether the loop has exited, and how many times
`Backend::mark_watched` was invoked. -/
inductive MonitorResult where
  | terminated (mark_watched_calls : Nat)
  | stillRunning (mark_watched_calls : Nat)
deriving DecidableEq, Repr

/-- Number of `mark_watched` invocations recorded by a monitor outcome. -/
def MonitorResult.calls : MonitorResult → Nat
  | MonitorResult.terminated n => n
  | MonitorResult.stillRunning n => n

/-- The loop of `PlayerPage::monitor_playback_completion`, run over a
finite trace of observations. On Stopped: if a current media item is
present and both position and duration are available with
`position/duration > 0.9`, `mark_watched` is invoked (its own failure is
only logged), and the loop exits. On Error the loop exits without
invoking anything. Any other state polls on. -/
def monitor_loop (media_item : Option MediaItem) : List Observation → MonitorResult
  | [] => MonitorResult.stillRunning 0
  | o :: rest =>
    match o.state with
    | PlayerState.stopped =>
      match media_item with
      | some _ =>
        MonitorResult.terminated (if watched_threshold_met o.pos o.dur then 1 else 0)
      | none => MonitorResult.terminated 0
    | PlayerState.error _ => MonitorResult.terminated 0
    | _ => monitor_loop media_item rest

/-- The end-label display mode cycled by clicking the end-time label. -/
inductive TimeDisplayMode where
  | totalDuration
  | timeRemaining
  | endTime
deriving DecidableEq, Repr

/-- The values the controls publish to the presentation layer: the
progress-bar value, the current-position label and the end label. -/
structure Display where
  progress : Rat
  time_text : String
  end_text : String
deriving DecidableEq, Repr

/-- The progress value computed by the position poller:
`(position.as_secs_f64() / duration.as_secs_f64()) * 100.0`,
over exact rationals. -/
def progress_value (position duration : Nat) : Rat :=
  (position : Rat) / (NANOS_PER_SEC : Rat) / ((duration : Rat) / (NANOS_PER_SEC : Rat)) * 100

/-- One tick of the 500 ms timer of `PlayerControls::start_position_timer`.
Both labels and the progress value are updated only when position and
duration are both available; inside that branch the progress value is
written only when `is_seeking` is false, the current-position label is
always written, and the end label is written according to the display
mode. The EndTime branch formats a wall-clock time from the remaining
duration via `chrono`; that external rendering is the `clock_render`
parameter. -/
def poller_tick (is_seeking : Bool) (pos dur : Option Nat)
    (mode : TimeDisplayMode) (clock_render : Nat → String) (d : Display) : Display :=
  match pos, dur with
  | some position, some duration =>
    let d1 := if is_seeking then d
      else { d with progress := progress_value position duration }
    let d2 := { d1 with time_text := format_duration (position / NANOS_PER_SEC) }
    let end_str :=
      match mode with
      | TimeDisplayMode.totalDuration => format_duration (duration / NANOS_PER_SEC)
      | TimeDisplayMode.timeRemaining =>
        "-" ++ format_duration ((duration - position) / NANOS_PER_SEC)
      | TimeDisplayMode.endTime => clock_render (duration - position)
    { d2 with end_text := end_str }
  | _, _ => d

/-- The steps taken by the progress-bar `connect_change_value` handler,
in program order. -/
inductive SeekEvent where
  | set_seeking (b : Bool)
  | player_seek (target_nanos : Rat)
  | schedule_clear (delay_ms : Nat)
deriving DecidableEq, Repr

/-- Seek target of the drag-to-seek handler:
`Duration::from_secs_f64(value * duration.as_secs_f64() / 100.0)`,
in nanoseconds over exact rationals. -/
def seek_target (value : Rat) (duration : Nat) : Rat :=
  value * ((duration : Rat) / (NANOS_PER_SEC : Rat)) / 100 * (NANOS_PER_SEC : Rat)

/-- The progress-bar `connect_change_value` handler: it sets `is_seeking`
first, then, if the Player reports a duration, issues the seek command
(failure only logged), and finally schedules a 100 ms timeout that
clears `is_seeking`. -/
def seek_handler (value : Rat) (dur : Option Nat) : List SeekEvent :=
  [SeekEvent.set_seeking true] ++
    (match dur with
     | some duration => [SeekEvent.player_seek (seek_target value duration)]
     | none => []) ++
    [SeekEvent.schedule_clear 100]

/-- The `set-quality-{index}` action of `PlayerControls::populate_quality_menu`:
reads the current position, loads the new URL, and on success seeks back
to the saved position (when one was read; seek failure only logged) and
then calls `play()`; on load failure it returns early. The value is the
list of Player commands issued, with the outcome of `Player::load_media`
supplied as a boolean. -/
def quality_switch (position : Option Nat) (url : String) (load_ok : Bool) :
    List PlayerCmd :=
  [PlayerCmd.load url] ++
    (if load_ok then
      (match position with
       | some p => [PlayerCmd.seek p]
       | none => []) ++ [PlayerCmd.play]
     else [])

/-- An entry appended to a `gio::Menu`: a label and an optional action. -/
structure MenuEntry where
  label : String
  action : Option String
deriving DecidableEq, Repr

/-- The subtitle half of `PlayerControls::populate_track_menus`: given
the subtitle track list read from the Player, produce the menu entries
and the sensitivity of the subtitle button. The catalog counts as empty
when the list is empty or consists of exactly one entry with index -1;
otherwise each track gets an entry, indices below zero mapping to the
`disable-subtitles` action. -/
def populate_subtitle_menu (tracks : List (Int × String)) : List MenuEntry × Bool :=
  if tracks.isEmpty || (tracks.length == 1 && decide (tracks.headI.1 = -1)) then
    ([{ label := "No subtitles available", action := none }], false)
  else
    (tracks.map (fun t : Int × String =>
      { label := t.2,
        action := some (if t.1 < 0 then "player.disable-subtitles"
                        else "player.set-subtitle-track-" ++ toString t.1) }),
     true)

/-!
Theorems checking the claims.
-/

/-- C9. For every non-negative duration d, `format_duration` returns
M:SS (minutes unpadded, seconds two digits) when d is under one hour and
H:MM:SS (hours unpadded, minutes and seconds two digits) otherwise; in
particular 65 s formats as "1:05", 3665 s as "1:01:05" and 0 s as "0:00". -/
theorem C9_format_duration_spec (d : Nat) :
    format_duration d =
      (if d < 3600 then toString (d / 60) ++ ":" ++ pad2 (d % 60)
       else toString (d / 3600) ++ ":" ++ pad2 (d % 3600 / 60) ++ ":" ++ pad2 (d % 60)) ∧
    (pad2 (d % 60)).length = 2 ∧
    (pad2 (d % 3600 / 60)).length = 2 ∧
    format_duration 65 = "1:05" ∧
    format_duration 3665 = "1:01:05" ∧
    format_duration 0 = "0:00" := by
  have hb : ∀ s, s < 60 → (pad2 s).length = 2 := by decide
  refine ⟨?_, hb _ (Nat.mod_lt _ (by norm_num)), hb _ (by omega), by decide, by decide, by decide⟩
  by_cases h : d < 3600
  · have h0 : d / 3600 = 0 := Nat.div_eq_of_lt h
    simp [format_duration, h0, Nat.mod_eq_of_lt h, h]
  · have h1 : 0 < d / 3600 := Nat.div_pos (le_of_not_lt h) (by norm_num)
    simp [format_duration, h1, h]

/-- C10. A backward seek (rewind button or Left arrow key) targets the
saturating difference position - 10 s: the target equals
max (position - 10 s) 0 over the integers, so it never underflows and is
zero whenever the position is under ten seconds. -/
theorem C10_rewind_saturating (p : Nat) :
    ((rewind_target p : Int) = max ((p : Int) - 10 * (NANOS_PER_SEC : Int)) 0) ∧
    rewind_target (5 * NANOS_PER_SEC) = 0 := by
  constructor
  · simp only [rewind_target, NANOS_PER_SEC]
    omega
  · simp [rewind_target, NANOS_PER_SEC]

/-- C7. `stop` instructs the Player to stop and releases the suspend
inhibition, while the stored current MediaItem and current StreamInfo
are left unchanged. -/
theorem C7_stop_frame (s : SessionState) :
    (stop_session s).2 = [PlayerCmd.stop] ∧
    (stop_session s).1.current_media_item = s.current_media_item ∧
    (stop_session s).1.current_stream_info = s.current_stream_info ∧
    (stop_session s).1.inhibit.stored = none := by
  refine ⟨rfl, rfl, rfl, ?_⟩
  unfold stop_session uninhibit_suspend
  cases h : s.inhibit.stored <;> simp [h]

/-- C4 (amended). The quality-switch handler reads the position before
loading the new URL; if the load succeeds it seeks back to that position
(when one was available) and then issues play unconditionally, whether
or not the session was playing before the switch; if the load fails the
switch aborts without seeking or resuming. -/
theorem C4_quality_switch_commands (p : Nat) (pos : Option Nat) (url : String) :
    quality_switch (some p) url true =
      [PlayerCmd.load url, PlayerCmd.seek p, PlayerCmd.play] ∧
    quality_switch none url true = [PlayerCmd.load url, PlayerCmd.play] ∧
    quality_switch pos url false = [PlayerCmd.load url] := by
  refine ⟨rfl, rfl, ?_⟩
  cases pos <;> rfl

/-- C4 fails as stated: after a successful load at position 120 s the
handler issues the play command even when the session was not playing
before the switch, so "resumes playback if and only if the session was
playing before the switch" is false at was_playing = false. -/
theorem C4_resume_not_conditional :
    ¬ ∀ (was_playing : Bool),
        (PlayerCmd.play ∈ quality_switch (some (120 * NANOS_PER_SEC)) "url-720p" true ↔
          was_playing = true) := by
  intro h
  exact absurd ((h false).mp (by decide)) (by decide)

/-- C3. A poller tick that runs while the is-seeking flag is true leaves
the published progress value unchanged; the drag-to-seek handler sets the
flag as its first step, before issuing the seek command, and only
schedules the clearing of the flag behind a 100 ms settle delay after
the seek command has returned. -/
theorem C3_seek_gate (value : Rat) (du : Nat) (pos dur : Option Nat)
    (mode : TimeDisplayMode) (clock_render : Nat → String) (d : Display) :
    (poller_tick true pos dur mode clock_render d).progress = d.progress ∧
    seek_handler value (some du) =
      [SeekEvent.set_seeking true, SeekEvent.player_seek (seek_target value du),
       SeekEvent.schedule_clear 100] ∧
    seek_handler value none = [SeekEvent.set_seeking true, SeekEvent.schedule_clear 100] ∧
    (seek_handler value dur).head? = some (SeekEvent.set_seeking true) := by
  refine ⟨?_, rfl, rfl, ?_⟩
  · cases pos <;> cases dur <;> simp [poller_tick]
  · cases dur <;> rfl

/-- Well-formedness of the inhibition resource: the outstanding OS
inhibitions are exactly the stored cookie (none, or a single one). -/
def inhibit_ok (s : InhibitState) : Prop :=
  match s.stored with
  | none => s.live = []
  | some c => s.live = [c]

lemma inhibit_ok_apply (s : InhibitState) (op : InhibitOp) (h : inhibit_ok s) :
    inhibit_ok (apply_inhibit_op s op) := by
  have hrel : inhibit_ok (uninhibit_suspend s) ∧ (uninhibit_suspend s).live = [] := by
    cases hs : s.stored with
    | none =>
      unfold inhibit_ok at h
      rw [hs] at h
      constructor
      · unfold inhibit_ok uninhibit_suspend
        rw [hs]
        simp [hs, h]
      · unfold uninhibit_suspend
        rw [hs]
        exact h
    | some c =>
      unfold inhibit_ok at h
      rw [hs] at h
      constructor
      · unfold inhibit_ok uninhibit_suspend
        rw [hs]
        simp [h]
      · unfold uninhibit_suspend
        rw [hs]
        simp [h]
  cases op with
  | release => exact hrel.1
  | acquire =>
    unfold apply_inhibit_op inhibit_suspend inhibit_ok
    simp [hrel.2]

lemma inhibit_ok_run (ops : List InhibitOp) (s : InhibitState) (h : inhibit_ok s) :
    inhibit_ok (run_inhibit_ops ops s) := by
  induction ops generalizing s with
  | nil => exact h
  | cons op rest ih => exact ih _ (inhibit_ok_apply s op h)

/-- C5. After any sequence of acquire/release operations starting from
the initial state, at most one inhibition handle is outstanding and it
coincides with the stored cookie; acquire first releases any existing
handle (so the well-formedness is preserved), and release is a no-op
when no cookie is stored. -/
theorem C5_inhibit_exclusive (ops : List InhibitOp) (l : List Nat) (n : Nat) :
    (run_inhibit_ops ops init_inhibit).live.length ≤ 1 ∧
    inhibit_ok (run_inhibit_ops ops init_inhibit) ∧
    uninhibit_suspend { stored := none, live := l, next := n } =
      { stored := none, live := l, next := n } := by
  have hok : inhibit_ok (run_inhibit_ops ops init_inhibit) :=
    inhibit_ok_run ops init_inhibit (by unfold inhibit_ok init_inhibit; simp)
  refine ⟨?_, hok, rfl⟩
  unfold inhibit_ok at hok
  cases h : (run_inhibit_ops ops init_inhibit).stored <;> rw [h] at hok <;> simp [hok]

lemma progress_value_eq (p du : Nat) :
    progress_value p du = (p : Rat) / (du : Rat) * 100 := by
  unfold progress_value
  rcases eq_or_ne (du : Rat) 0 with h | h
  · simp [h]
  · have hN : (NANOS_PER_SEC : Rat) ≠ 0 := by norm_num [NANOS_PER_SEC]
    field_simp

/-- C6 (amended). On every poller tick where both position and duration
are available, the current-position time label is published regardless
of the is-seeking flag, and the progress value is published exactly when
is-seeking is false, computed as position/duration*100; on ticks where
either reading is unavailable, the tick publishes nothing. -/
theorem C6_poller_publishes (seeking : Bool) (p du : Nat) (pos dur : Option Nat)
    (mode : TimeDisplayMode) (clock_render : Nat → String) (d : Display) :
    (poller_tick seeking (some p) (some du) mode clock_render d).time_text
      = format_duration (p / NANOS_PER_SEC) ∧
    (poller_tick false (some p) (some du) mode clock_render d).progress
      = (p : Rat) / (du : Rat) * 100 ∧
    (poller_tick true pos dur mode clock_render d).progress = d.progress ∧
    poller_tick seeking none dur mode clock_render d = d ∧
    poller_tick seeking pos none mode clock_render d = d := by
  refine ⟨rfl, ?_, ?_, ?_, ?_⟩
  · show progress_value p du = _
    exact progress_value_eq p du
  · cases pos <;> cases dur <;> simp [poller_tick]
  · cases dur <;> rfl
  · cases pos <;> rfl

/-- The label the time display starts from (`gtk::Label::new(Some("0:00"))`)
and keeps when the poller cannot read the player. -/
def display0 : Display := { progress := 0, time_text := "0:00", end_text := "0:00" }

/-- A stand-in for the wall-clock rendering of the EndTime mode. -/
def clock_render0 : Nat → String := fun _ => ""

/-- C6 fails as stated: on a tick where the position is available
(65 s) but the duration is not, the current-position time label is not
published - it stays at its previous value instead of the formatted
position "1:05". -/
theorem C6_label_needs_duration :
    (poller_tick false (some (65 * NANOS_PER_SEC)) none TimeDisplayMode.totalDuration
        clock_render0 display0).time_text = display0.time_text ∧
    display0.time_text ≠ format_duration ((65 * NANOS_PER_SEC) / NANOS_PER_SEC) := by
  constructor
  · rfl
  · decide

lemma subtitle_disabled_iff (tracks : List (Int × String)) :
    (tracks.isEmpty || (tracks.length == 1 && decide (tracks.headI.1 = -1))) = true ↔
    tracks = [] ∨ ∃ name, tracks = [(-1, name)] := by
  rcases tracks with _ | ⟨⟨i, name⟩, _ | ⟨y, rest⟩⟩
  · simp
  · simp only [List.isEmpty_cons, List.length_singleton, List.headI, Bool.false_or,
      beq_self_eq_true, Bool.true_and, decide_eq_true_eq]
    constructor
    · intro h
      exact Or.inr ⟨name, by rw [h]⟩
    · rintro (h | ⟨n, hn⟩)
      · exact absurd h (by simp)
      · simp only [List.cons.injEq, Prod.mk.injEq] at hn
        exact hn.1.1
  · simp [List.headI]

/-- C8. During catalog population, a subtitle list that is empty or
contains exactly one entry with the disabled sentinel index -1 yields a
disabled selector showing a placeholder entry; otherwise the selector is
enabled and every track gets a menu entry, negative indices mapping to
the disable-subtitles action. -/
theorem C8_subtitle_catalog (tracks : List (Int × String)) :
    ((populate_subtitle_menu tracks).2 = false ↔
      tracks = [] ∨ ∃ name, tracks = [(-1, name)]) ∧
    ((populate_subtitle_menu tracks).2 = false →
      (populate_subtitle_menu tracks).1 =
        [{ label := "No subtitles available", action := none }]) ∧
    ((populate_subtitle_menu tracks).2 = true →
      ((populate_subtitle_menu tracks).1.length = tracks.length ∧
       ∀ idx name, (idx, name) ∈ tracks →
         ({ label := name,
            action := some (if idx < 0 then "player.disable-subtitles"
                            else "player.set-subtitle-track-" ++ toString idx) } : MenuEntry)
           ∈ (populate_subtitle_menu tracks).1)) := by
  by_cases h : (tracks.isEmpty || (tracks.length == 1 && decide (tracks.headI.1 = -1))) = true
  · refine ⟨?_, ?_, ?_⟩
    · rw [← subtitle_disabled_iff tracks, ← h]
      simp [populate_subtitle_menu, h]
    · intro _
      simp [populate_subtitle_menu, h]
    · intro htrue
      rw [populate_subtitle_menu, if_pos h] at htrue
      exact absurd htrue (by simp)
  · refine ⟨?_, ?_, ?_⟩
    · rw [← subtitle_disabled_iff tracks]
      simp only [populate_subtitle_menu, if_neg h]
      simpa using h
    · intro hfalse
      rw [populate_subtitle_menu, if_neg h] at hfalse
      exact absurd hfalse (by simp)
    · intro _
      rw [populate_subtitle_menu, if_neg h]
      constructor
      · simp
      · intro idx name hmem
        exact List.mem_map_of_mem _ hmem

/-- A concrete subtitle catalog with the disabled sentinel and one real
track, used to witness C8. -/
def tracks0 : List (Int × String) := [(-1, "None"), (0, "English")]

/-- Witness for C8 at a concrete catalog: a list holding the sentinel
plus one real track enables the selector and maps the sentinel to the
disable-subtitles action. -/
theorem C8_subtitle_catalog_witness :
    (populate_subtitle_menu tracks0).2 = true ∧
    ({ label := "None", action := some "player.disable-subtitles" } : MenuEntry)
      ∈ (populate_subtitle_menu tracks0).1 := by
  have h := C8_subtitle_catalog tracks0
  constructor
  · by_contra hne
    have hfalse : (populate_subtitle_menu tracks0).2 = false := by
      revert hne
      cases (populate_subtitle_menu tracks0).2 <;> simp
    rcases h.1.mp hfalse with h0 | ⟨n, hn⟩
    · simp [tracks0] at h0
    · simp [tracks0] at hn
  · have ht : (populate_subtitle_menu tracks0).2 = true := by
      by_contra hne
      have hfalse : (populate_subtitle_menu tracks0).2 = false := by
        revert hne
        cases (populate_subtitle_menu tracks0).2 <;> simp
      rcases h.1.mp hfalse with h0 | ⟨n, hn⟩
      · simp [tracks0] at h0
      · simp [tracks0] at hn
    have hmem := (h.2.2 ht).2 (-1) "None" (by simp [tracks0])
    simpa using hmem

/-- A previously loaded media item, used as concrete input. -/
def item_a : MediaItem := { id := "m1", title := "Old Movie" }

/-- A newly requested media item, used as concrete input. -/
def item_b : MediaItem := { id := "m2", title := "New Movie" }

/-- A backend whose stream resolution always errors, used as concrete input. -/
def backend_err : Backend := { get_stream_url := fun _ => Except.error "boom" }

/-- A session that already holds a loaded media item, used as concrete input. -/
def session0 : SessionState :=
  { current_media_item := some item_a,
    current_stream_info := none,
    player := { loaded_url := none, state := PlayerState.idle },
    inhibit := init_inhibit }

/-- C1 (amended). When no active backend is configured, load returns the
BackendUnavailable error, and when the backend's stream resolution
errors, load returns the StreamResolutionFailed error; in both failure
cases the current StreamInfo, the player state and the inhibition state
are unchanged, but the current MediaItem has already been replaced by
the requested item, which is stored before the backend check. -/
theorem C1_load_failure_frame (st : SessionState) (item : MediaItem) (b : Backend)
    (e : String) (lo po : Bool)
    (hb : b.get_stream_url item.id = Except.error e) :
    load_media none item lo po st =
      ({ st with current_media_item := some item },
        Except.error LoadError.backendUnavailable) ∧
    load_media (some b) item lo po st =
      ({ st with current_media_item := some item },
        Except.error (LoadError.streamResolutionFailed e)) := by
  refine ⟨rfl, ?_⟩
  simp only [load_media]
  rw [hb]

/-- Witness for C1 at concrete inputs: loading with no backend and
loading against a backend whose stream resolution errors both fail with
the stated errors while only the media item field changes. -/
theorem C1_load_failure_frame_witness :
    load_media none item_b true true session0 =
      ({ session0 with current_media_item := some item_b },
        Except.error LoadError.backendUnavailable) ∧
    load_media (some backend_err) item_b true true session0 =
      ({ session0 with current_media_item := some item_b },
        Except.error (LoadError.streamResolutionFailed "boom")) :=
  C1_load_failure_frame session0 item_b backend_err "boom" true true rfl

/-- C1 fails as stated: a load with no active backend returns the
BackendUnavailable error, yet the stored current MediaItem is not
unchanged - it has been overwritten with the requested item. -/
theorem C1_media_item_mutated :
    (load_media none item_b true true session0).2 =
      Except.error LoadError.backendUnavailable ∧
    (load_media none item_b true true session0).1.current_media_item ≠
      session0.current_media_item := by
  constructor
  · rfl
  · decide

/-- The predicate on which the completion monitor exits its loop,
applied to observations. -/
def terminal_obs (o : Observation) : Bool := is_terminal o.state

/-- C2. Over any finite observation trace of a session (media item
present): the completion monitor invokes mark_watched at most once; it
terminates having invoked it exactly once if and only if the first
terminal observation is Stopped with position and duration available and
position/duration > 0.9; and when the first terminal observation is an
Error the loop terminates without invoking mark_watched. -/
theorem C2_completion_monitor (item : MediaItem) (obs : List Observation) :
    (monitor_loop (some item) obs).calls ≤ 1 ∧
    (monitor_loop (some item) obs = MonitorResult.terminated 1 ↔
      ∃ o, obs.find? terminal_obs = some o ∧
        o.state = PlayerState.stopped ∧ watched_threshold_met o.pos o.dur = true) ∧
    (∀ o msg, obs.find? terminal_obs = some o → o.state = PlayerState.error msg →
      monitor_loop (some item) obs = MonitorResult.terminated 0) := by
  induction obs with
  | nil =>
    refine ⟨by simp [monitor_loop, MonitorResult.calls], ?_, ?_⟩
    · simp [monitor_loop]
    · intro o msg hfind _
      simp at hfind
  | cons o rest ih =>
    obtain ⟨s, opos, odur⟩ := o
    cases s with
    | stopped =>
      have hfc : ((⟨PlayerState.stopped, opos, odur⟩ : Observation) :: rest).find? terminal_obs
          = some ⟨PlayerState.stopped, opos, odur⟩ :=
        List.find?_cons_of_pos _ rfl
      have hml : monitor_loop (some item) (⟨PlayerState.stopped, opos, odur⟩ :: rest)
          = MonitorResult.terminated (if watched_threshold_met opos odur then 1 else 0) := rfl
      refine ⟨?_, ?_, ?_⟩
      · rw [hml]
        by_cases hw : watched_threshold_met opos odur <;>
          simp [MonitorResult.calls, hw]
      · rw [hml, hfc]
        constructor
        · intro h1
          refine ⟨⟨PlayerState.stopped, opos, odur⟩, rfl, rfl, ?_⟩
          by_contra hw
          simp only [Bool.not_eq_true] at hw
          rw [hw] at h1
          simp at h1
        · rintro ⟨o2, ho2, _, hw⟩
          injection ho2 with ho2
          subst ho2
          simp only at hw
          simp [hw]
      · intro o2 msg ho2 herr
        rw [hfc] at ho2
        injection ho2 with ho2
        subst ho2
        exact absurd herr (by simp)
    | error msg0 =>
      have hfc : ((⟨PlayerState.error msg0, opos, odur⟩ : Observation) :: rest).find? terminal_obs
          = some ⟨PlayerState.error msg0, opos, odur⟩ :=
        List.find?_cons_of_pos _ rfl
      have hml : monitor_loop (some item) (⟨PlayerState.error msg0, opos, odur⟩ :: rest)
          = MonitorResult.terminated 0 := rfl
      refine ⟨by rw [hml]; simp [MonitorResult.calls], ?_, ?_⟩
      · rw [hml, hfc]
        constructor
        · intro h1
          simp at h1
        · rintro ⟨o2, ho2, hstop, _⟩
          injection ho2 with ho2
          subst ho2
          exact absurd hstop (by simp)
      · intro _ _ _ _
        exact hml
    | idle =>
      have hfc : ((⟨PlayerState.idle, opos, odur⟩ : Observation) :: rest).find? terminal_obs
          = rest.find? terminal_obs :=
        List.find?_cons_of_neg _ (by simp [terminal_obs, is_terminal])
      have hml : monitor_loop (some item) (⟨PlayerState.idle, opos, odur⟩ :: rest)
          = monitor_loop (some item) rest := rfl
      rw [hml, hfc]
      exact ih
    | loading =>
      have hfc : ((⟨PlayerState.loading, opos, odur⟩ : Observation) :: rest).find? terminal_obs
          = rest.find? terminal_obs :=
        List.find?_cons_of_neg _ (by simp [terminal_obs, is_terminal])
      have hml : monitor_loop (some item) (⟨PlayerState.loading, opos, odur⟩ :: rest)
          = monitor_loop (some item) rest := rfl
      rw [hml, hfc]
      exact ih
    | playing =>
      have hfc : ((⟨PlayerState.playing, opos, odur⟩ : Observation) :: rest).find? terminal_obs
          = rest.find? terminal_obs :=
        List.find?_cons_of_neg _ (by simp [terminal_obs, is_terminal])
      have hml : monitor_loop (some item) (⟨PlayerState.playing, opos, odur⟩ :: rest)
          = monitor_loop (some item) rest := rfl
      rw [hml, hfc]
      exact ih
    | paused =>
      have hfc : ((⟨PlayerState.paused, opos, odur⟩ : Observation) :: rest).find? terminal_obs
          = rest.find? terminal_obs :=
        List.find?_cons_of_neg _ (by simp [terminal_obs, is_terminal])
      have hml : monitor_loop (some item) (⟨PlayerState.paused, opos, odur⟩ :: rest)
          = monitor_loop (some item) rest := rfl
      rw [hml, hfc]
      exact ih

/-- Observation trace ending in Stopped at 95 of 100 seconds, used as
concrete input. -/
def obs_stop : List Observation :=
  [{ state := PlayerState.playing, pos := none, dur := none },
   { state := PlayerState.stopped,
     pos := some (95 * NANOS_PER_SEC), dur := some (100 * NANOS_PER_SEC) }]

/-- Observation trace whose first terminal state is an Error, used as
concrete input. -/
def obs_err : List Observation :=
  [{ state := PlayerState.error "decode failure", pos := none, dur := none }]

/-- Witness for C2 at concrete traces: stopping at 95 of 100 seconds
invokes mark_watched exactly once, and a trace hitting Error terminates
without invoking it. -/
theorem C2_completion_monitor_witness :
    monitor_loop (some item_b) obs_stop = MonitorResult.terminated 1 ∧
    monitor_loop (some item_b) obs_err = MonitorResult.terminated 0 := by
  constructor
  · exact (C2_completion_monitor item_b obs_stop).2.1.mpr
      ⟨{ state := PlayerState.stopped,
         pos := some (95 * NANOS_PER_SEC), dur := some (100 * NANOS_PER_SEC) },
       by decide, rfl, by decide⟩
  · exact (C2_completion_monitor item_b obs_err).2.2
      { state := PlayerState.error "decode failure", pos := none, dur := none }
      "decode failure" (by decide) rfl

end GnomeReel
